import Mathlib

/-!
Verification of the databend-py HTTP client (`databend_driver/client.py`).

The driver submits a query over HTTP; the server answers with a first page
and possibly a chain of continuation pages reached through `next_uri`.
`Client.data_generator` drives the continuation fetches, `receive_result`
materializes a full result, `iter_receive_result` streams it, and
`from_url` builds a client configuration from a connection URL.

Pages, the wire payload of a continuation response, and the observable
interaction with the `Connection` (queries submitted, URIs fetched,
disconnect calls) are embedded below; the client functions are translated
from the Python source, with the collaborators that are not part of the
source (`Connection.check_error`, `QueryResult.get_result`, `asbool`, and
the Python standard library) modelled at their documented interface.
-/

namespace DatabendPy

/-- Structured error object a server may embed in a page payload. -/
structure ServerError where
  code : Int
  message : String
deriving DecidableEq

/-- One decoded page of a query result, the JSON object the server returns:
the `schema.fields[].data_type.type` tags, the `data` rows (each row a tuple
of cells), the `next_uri` continuation (`none` is the terminal signal), and
the optional embedded error object. -/
structure RawPage (Cell : Type) where
  schemaTypes : List String
  data : List (List Cell)
  next_uri : Option String
  err : Option ServerError
deriving DecidableEq

/-- Failures the driver can raise while consuming a query result. -/
inductive DriverError where
  | serverReported (code : Int) (message : String)
  | decodeError
  | transportError (message : String)
  | keyboardInterrupt
deriving DecidableEq

/-- The JSON document carried inside the outer JSON string of a continuation
response body. -/
inductive InnerDoc (Cell : Type) where
  | page (p : RawPage Cell)
  | falsy
  | invalid
deriving DecidableEq

/-- What the nested `json.loads(json.loads(resp.content))` produces when it
succeeds: either a page object, or a decoded value Python treats as falsy
(such as an empty object), which makes `data_generator` break out of its
loop without yielding it. -/
inductive Decoded (Cell : Type) where
  | page (p : RawPage Cell)
  | falsy
deriving DecidableEq

/-- The body of a continuation response as the two nested `json.loads` calls
see it: the outer document may be a JSON string (whose string value is then
parsed again), a plain JSON object (singly encoded), or not valid JSON. -/
inductive WirePayload (Cell : Type) where
  | jsonString (inner : InnerDoc Cell)
  | jsonObject (p : RawPage Cell)
  | malformed
deriving DecidableEq

deriving instance DecidableEq for Except

/-- The nested `json.loads(json.loads(content))` of `Client.receive_data`: the outer
decode must yield a JSON string, and that string value must itself be a JSON
document. An outer document that is already an object makes the second
`json.loads` fail (its argument is a dict, not a string), and any parse
failure is a decode error. -/
def doubleJsonLoads {Cell : Type} : WirePayload Cell → Except DriverError (Decoded Cell)
  | .jsonString (.page p) => .ok (.page p)
  | .jsonString .falsy => .ok .falsy
  | .jsonString .invalid => .error .decodeError
  | .jsonObject _ => .error .decodeError
  | .malformed => .error .decodeError

/-- Modelled from the spec: `Connection.check_error`
(`databend_driver/connection.py`, not part of the source tree): after
decode, inspect the embedded error object and fail with
`ServerReportedError{code, message}` when it is present, even though the
HTTP layer reported success. -/
def check_error {Cell : Type} (p : RawPage Cell) : Except DriverError Unit :=
  match p.err with
  | some e => .error (.serverReported e.code e.message)
  | none => .ok ()

/-- The embedded-error check applied to whatever the two decodes produced: a falsy
decoded value carries no embedded error object. -/
def check_error_decoded {Cell : Type} : Decoded Cell → Except DriverError Unit
  | .page p => check_error p
  | .falsy => .ok ()

/-- One call of `Client.receive_data`: `resp` is the outcome of
`Connection.next_page` (`Except.error` models a raised transport failure, or
an interrupt delivered while the fetch is outstanding); on success the body
goes through the two nested `json.loads` and then the embedded-error
check. -/
def receive_data {Cell : Type} (resp : Except DriverError (WirePayload Cell)) :
    Except DriverError (Decoded Cell) := do
  let content ← resp
  let raw_data ← doubleJsonLoads content
  check_error_decoded raw_data
  pure raw_data

/-- Observable interaction with the `Connection`: the queries submitted
(paired with the query identifier actually passed), the continuation URIs
fetched via `next_page`, and the number of `disconnect` calls. -/
structure Trace where
  queries : List (String × Option String)
  fetched : List String
  disconnects : Nat
deriving DecidableEq

/-- The trace right after `Connection.query(query, None)` was issued. -/
def initTrace (query : String) : Trace :=
  { queries := [(query, none)], fetched := [], disconnects := 0 }

/-- Behaviour of one `Connection` for one query: the response to
`Connection.query`, and the scripted outcomes of the successive
`Connection.next_page` calls (the `k`-th call is answered by `responses[k]`;
an exhausted script answers with a transport failure). -/
structure Transport (Cell : Type) where
  query : String → Option String → Except DriverError (RawPage Cell)
  responses : List (Except DriverError (WirePayload Cell))

/-- A transport whose every `Connection.query` call succeeds with `p0` and
whose continuation fetches are answered by `rs`. -/
def mkTransport {Cell : Type} (p0 : RawPage Cell)
    (rs : List (Except DriverError (WirePayload Cell))) : Transport Cell :=
  { query := fun _ _ => .ok p0, responses := rs }

/-- Model of `Client.data_generator`, fully drained: starting from the already-fetched
page `raw_data`, while the current page's `next_uri` is not `None`, call
`receive_data` on it; a falsy decoded value ends the loop, a page is yielded
and becomes current, and any raised failure triggers one `disconnect` and is
re-raised. Returns the yielded pages (or the propagated failure) together
with the updated interaction trace. -/
def drainGen {Cell : Type} (responses : List (Except DriverError (WirePayload Cell)))
    (raw_data : RawPage Cell) (tr : Trace) :
    Except DriverError (List (RawPage Cell)) × Trace :=
  match raw_data.next_uri with
  | none => (.ok [], tr)
  | some uri =>
    match responses with
    | [] =>
        (.error (.transportError "connection closed"),
          { tr with fetched := tr.fetched ++ [uri], disconnects := tr.disconnects + 1 })
    | resp :: rest =>
        let tr1 : Trace := { tr with fetched := tr.fetched ++ [uri] }
        match receive_data resp with
        | .error e => (.error e, { tr1 with disconnects := tr1.disconnects + 1 })
        | .ok .falsy => (.ok [], tr1)
        | .ok (.page p) =>
            match drainGen rest p tr1 with
            | (.ok ps, tr2) => (.ok (p :: ps), tr2)
            | (.error e, tr2) => (.error e, tr2)

/-- The value `receive_result` returns: the accumulated rows, paired with
the column type tags when `with_column_types` was requested. -/
inductive ExecReturn (Cell : Type) where
  | rows (data : List (List Cell))
  | rowsWithTypes (data : List (List Cell)) (columns_types : List String)
deriving DecidableEq

/-- Modelled from the spec: `QueryResult.get_result`
(`databend_driver/result.py`, not part of the source tree). The
materializing projection drains the generator eagerly, accumulating the rows
of every packet in arrival order into one flat list of row tuples; when
column types are requested they are derived once, from the schema of the
first packet of the drained sequence. -/
def get_result {Cell : Type} (with_column_types : Bool)
    (packets : List (RawPage Cell)) : ExecReturn Cell :=
  let data := (packets.map fun p => p.data).flatten
  if with_column_types then
    .rowsWithTypes data (match packets with | [] => [] | p :: _ => p.schemaTypes)
  else .rows data

/-- Model of `Client.receive_result`: submit the query with a `None` identifier, run
the embedded-error check on the first page, and either return that page's
rows directly when it has no continuation, or drain `data_generator` through
the materializing `QueryResult`. -/
def receive_result {Cell : Type} (t : Transport Cell) (query : String)
    (query_id : Option String) (with_column_types : Bool) :
    Except DriverError (ExecReturn Cell) × Trace :=
  match t.query query none with
  | .error e => (.error e, initTrace query)
  | .ok raw_data =>
      match check_error raw_data with
      | .error e => (.error e, initTrace query)
      | .ok _ =>
          let columns_types := raw_data.schemaTypes
          match raw_data.next_uri with
          | none =>
              if with_column_types then
                (.ok (.rowsWithTypes raw_data.data columns_types), initTrace query)
              else (.ok (.rows raw_data.data), initTrace query)
          | some _ =>
              match drainGen t.responses raw_data (initTrace query) with
              | (.ok packets, tr) => (.ok (get_result with_column_types packets), tr)
              | (.error e, tr) => (.error e, tr)

/-- Model of `Client.iter_receive_result` in its default mode
(`with_column_types=False`), fully drained. For a first page with no
continuation the Python generator executes `return raw_data`, which ends the
iteration without yielding anything (the value of a generator `return` is
invisible to a `for` consumer); otherwise it eagerly materializes
`result.get_result()` and runs `for rows in ...: for row in rows: yield row`
over the flat row list, which yields the individual cells of every row. -/
def iter_receive_result {Cell : Type} (t : Transport Cell) (query : String) :
    Except DriverError (List Cell) × Trace :=
  match t.query query none with
  | .error e => (.error e, initTrace query)
  | .ok raw_data =>
      match check_error raw_data with
      | .error e => (.error e, initTrace query)
      | .ok _ =>
          match raw_data.next_uri with
          | none => (.ok [], initTrace query)
          | some _ =>
              match drainGen t.responses raw_data (initTrace query) with
              | (.error e, tr) => (.error e, tr)
              | (.ok packets, tr) =>
                  (.ok ((packets.map fun p => p.data).flatten).flatten, tr)

/-- Model of `Client.process_ordinary_query`: receives `params` but forwards only the
query, the identifier and the column-type flag to `receive_result`. -/
def process_ordinary_query {Cell α : Type} (t : Transport Cell) (query : String)
    (params : α) (with_column_types : Bool) (query_id : Option String) :
    Except DriverError (ExecReturn Cell) × Trace :=
  receive_result t query query_id with_column_types

/-- Model of `Client.execute`: delegates to `process_ordinary_query`; the `settings`
argument is accepted and dropped. -/
def execute {Cell α σ : Type} (t : Transport Cell) (query : String) (params : α)
    (with_column_types : Bool) (query_id : Option String) (settings : σ) :
    Except DriverError (ExecReturn Cell) × Trace :=
  process_ordinary_query t query params with_column_types query_id

/-! ### `Client.from_url`

`urlparse`, `parse_qs`, `unquote` and `float` are Python standard-library
collaborators; they are modelled below on the inputs the statements use:
`urlparse` by the record of its output components, `parse_qs` by splitting
on `&` and at the first `=` (dropping blank values) and grouping values by
name in order of first occurrence, `unquote` as the identity (no input below
contains a percent-escape), and `float` on unsigned decimal integers. -/

/-- Output of `urllib.parse.urlparse` on a connection URL. -/
structure ParsedUrl where
  scheme : String
  username : Option String
  password : Option String
  hostname : Option String
  port : Option Nat
  path : String
  query : String

/-- Python `urllib.parse.unquote`, modelled as the identity (the statements
below only apply it to strings without percent-escapes). -/
def unquote (s : String) : String := s

/-- Split a character list at every occurrence of `c`. -/
def splitOnChar (c : Char) : List Char → List (List Char)
  | [] => [[]]
  | a :: rest =>
      match splitOnChar c rest with
      | [] => if a = c then [[], []] else [[a]]
      | g :: gs => if a = c then [] :: g :: gs else (a :: g) :: gs

/-- Split a character list at the first `=`, as `split('=', 1)` does;
`none` when there is no `=`. -/
def splitFirstEq : List Char → Option (List Char × List Char)
  | [] => none
  | a :: rest =>
      if a = '=' then some ([], rest)
      else match splitFirstEq rest with
        | none => none
        | some (n, v) => some (a :: n, v)

/-- The name/value pairs of a query string, in textual order: pieces without
an `=` and pieces with a blank value are dropped (`keep_blank_values` is
false by default). -/
def parse_qsl (q : String) : List (String × String) :=
  (splitOnChar '&' q.toList).filterMap fun part =>
    match splitFirstEq part with
    | none => none
    | some (n, v) => if v = [] then none else some (⟨n⟩, ⟨v⟩)

/-- Group one name/value pair into the accumulating dict, keeping the order
of first occurrence. -/
def qsInsert (acc : List (String × List String)) (nv : String × String) :
    List (String × List String) :=
  if acc.any fun p => p.1 == nv.1 then
    acc.map fun p => if p.1 == nv.1 then (p.1, p.2 ++ [nv.2]) else p
  else acc ++ [(nv.1, [nv.2])]

/-- Python `urllib.parse.parse_qs`: the query-string dict, each name mapped
to its list of values, iterated in order of first occurrence. -/
def parse_qs (q : String) : List (String × List String) :=
  (parse_qsl q).foldl qsInsert []

/-- Modelled from the spec: `asbool` (`databend_driver/util/helper.py`, not
part of the source tree) reads the boolean `secure` query option; the usual
truthy spellings give `true`, anything else `false`. -/
def asbool (s : String) : Bool :=
  ["true", "yes", "on", "y", "t", "1"].contains s.toLower

/-- Digits of an unsigned decimal integer, most significant first. -/
def natOfDigitsAux : List Char → Nat → Option Nat
  | [], acc => some acc
  | c :: rest, acc =>
      if '0' ≤ c ∧ c ≤ '9' then natOfDigitsAux rest (acc * 10 + (c.toNat - '0'.toNat))
      else none

/-- Python `float(value)`, modelled on unsigned decimal integer strings (the
only timeout values the statements below use), returning a rational. -/
def pyfloat (s : String) : Option ℚ :=
  match s.toList with
  | [] => none
  | cs => (natOfDigitsAux cs 0).map fun n => (n : ℚ)

/-- Python `path.replace('/', '', 1)`: remove the first slash of the URL path. -/
def removeFirstSlash : List Char → List Char
  | [] => []
  | a :: rest => if a = '/' then rest else a :: removeFirstSlash rest

/-- The keyword arguments `from_url` accumulates and hands to the `Client`
constructor (which pops `settings` and forwards the rest to `Connection`). -/
structure ClientConfig where
  host : Option String
  port : Option Nat
  database : Option String
  user : Option String
  password : Option String
  secure : Option Bool
  client_name : Option String
  connect_timeout : Option ℚ
  send_receive_timeout : Option ℚ
  sync_request_timeout : Option ℚ
  settings : List (String × String)
deriving DecidableEq

/-- One iteration of the query-option loop of `Client.from_url`: an empty
value list is skipped; otherwise, for an `https` URL `secure` is first reset
to `True`, and then the first value of the option is dispatched on its name
(`client_name` passes through, `secure` goes through `asbool`, the three
timeouts through `float`, and everything else becomes a server setting).
`none` models `float` raising on an unparseable value. -/
def fromUrlStep (scheme : String) (cfg : ClientConfig) (item : String × List String) :
    Option ClientConfig :=
  match item.2 with
  | [] => some cfg
  | value :: _ =>
      let cfg := if scheme = "https" then { cfg with secure := some true } else cfg
      let name := item.1
      if name = "client_name" then some { cfg with client_name := some value }
      else if name = "secure" then some { cfg with secure := some (asbool value) }
      else if name = "connect_timeout" then
        (pyfloat value).map fun q => { cfg with connect_timeout := some q }
      else if name = "send_receive_timeout" then
        (pyfloat value).map fun q => { cfg with send_receive_timeout := some q }
      else if name = "sync_request_timeout" then
        (pyfloat value).map fun q => { cfg with sync_request_timeout := some q }
      else some { cfg with settings := cfg.settings ++ [(name, value)] }

/-- Model of `Client.from_url` over the output of `urlparse`: host, port, database
(the path with its first slash removed), unquoted credentials, the
`https`-derived `secure` default, then the query-option loop. -/
def from_url (url : ParsedUrl) : Option ClientConfig :=
  let path := removeFirstSlash url.path.toList
  let kwargs0 : ClientConfig :=
    { host := url.hostname
      port := url.port
      database := if path ≠ [] then some ⟨path⟩ else none
      user := url.username.map unquote
      password := url.password.map unquote
      secure := if url.scheme = "https" then some true else none
      client_name := none
      connect_timeout := none
      send_receive_timeout := none
      sync_request_timeout := none
      settings := [] }
  (parse_qs url.query).foldlM (fromUrlStep url.scheme) kwargs0

/-- The URL `https://u:p@host:1234/db?secure=false&connect_timeout=5&x=1`,
as `urlparse` parses it. -/
def c2url : ParsedUrl :=
  { scheme := "https"
    username := some "u"
    password := some "p"
    hostname := some "host"
    port := some 1234
    path := "/db"
    query := "secure=false&connect_timeout=5&x=1" }

/-! ### Continuation chains and unfolding equations -/

/-- The scripted responses of a fault-free chain: each continuation fetch is
answered by the next page, double-encoded. -/
def okResponses {Cell : Type} (ps : List (RawPage Cell)) :
    List (Except DriverError (WirePayload Cell)) :=
  ps.map fun p => .ok (.jsonString (.page p))

/-- Predicate `chainOk p ps`: the pages `ps` follow `p` as a fault-free continuation
chain that terminates: every page but the last carries a continuation URI,
the last carries none, and no fetched page embeds an error. -/
def chainOk {Cell : Type} : RawPage Cell → List (RawPage Cell) → Bool
  | p, [] => p.next_uri.isNone
  | p, q :: qs => p.next_uri.isSome && q.err.isNone && chainOk q qs

/-- Predicate `openChain p ps`: as `chainOk`, but every page, the last included, still
carries a continuation URI, so one more fetch is about to be issued. -/
def openChain {Cell : Type} : RawPage Cell → List (RawPage Cell) → Bool
  | p, [] => p.next_uri.isSome
  | p, q :: qs => p.next_uri.isSome && q.err.isNone && openChain q qs

/-- The continuation URIs followed along a chain. -/
def chainUris {Cell : Type} : RawPage Cell → List (RawPage Cell) → List String
  | _, [] => []
  | p, q :: qs => p.next_uri.toList ++ chainUris q qs

/-- The continuation URI carried by the last page of `p :: ps`. -/
def lastUri {Cell : Type} : RawPage Cell → List (RawPage Cell) → List String
  | p, [] => p.next_uri.toList
  | _, q :: qs => lastUri q qs

theorem okResponses_cons {Cell : Type} (p : RawPage Cell) (ps : List (RawPage Cell)) :
    okResponses (p :: ps)
      = Except.ok (WirePayload.jsonString (InnerDoc.page p)) :: okResponses ps := rfl

theorem receive_data_okPage {Cell : Type} (p : RawPage Cell) (h : p.err = none) :
    receive_data (Except.ok (WirePayload.jsonString (InnerDoc.page p))) = .ok (.page p) := by
  simp [receive_data, doubleJsonLoads, check_error_decoded, check_error, h, bind, Except.bind,
    Functor.map, Except.map, pure, Except.pure]

theorem receive_data_errPage {Cell : Type} (p : RawPage Cell) (e : ServerError)
    (h : p.err = some e) :
    receive_data (Except.ok (WirePayload.jsonString (InnerDoc.page p)))
      = .error (.serverReported e.code e.message) := by
  simp [receive_data, doubleJsonLoads, check_error_decoded, check_error, h, bind, Except.bind,
    Functor.map, Except.map, pure, Except.pure]

theorem drainGen_terminal {Cell : Type} (rs) (p : RawPage Cell) (tr : Trace)
    (h : p.next_uri = none) : drainGen rs p tr = (.ok [], tr) := by
  unfold drainGen; rw [h]

theorem drainGen_some_nil {Cell : Type} (p : RawPage Cell) (tr : Trace) (u : String)
    (hu : p.next_uri = some u) :
    drainGen [] p tr = (.error (.transportError "connection closed"),
      { tr with fetched := tr.fetched ++ [u], disconnects := tr.disconnects + 1 }) := by
  unfold drainGen; rw [hu]

theorem drainGen_some_err {Cell : Type} (r) (rest) (p : RawPage Cell) (tr : Trace)
    (u : String) (e : DriverError) (hu : p.next_uri = some u)
    (hr : receive_data r = .error e) :
    drainGen (r :: rest) p tr = (.error e,
      { tr with fetched := tr.fetched ++ [u], disconnects := tr.disconnects + 1 }) := by
  unfold drainGen; rw [hu]; dsimp only; rw [hr]

theorem drainGen_some_falsy {Cell : Type} (r) (rest) (p : RawPage Cell) (tr : Trace)
    (u : String) (hu : p.next_uri = some u) (hr : receive_data r = .ok .falsy) :
    drainGen (r :: rest) p tr = (.ok [], { tr with fetched := tr.fetched ++ [u] }) := by
  unfold drainGen; rw [hu]; dsimp only; rw [hr]

theorem drainGen_some_page {Cell : Type} (r) (rest) (p pg : RawPage Cell) (tr : Trace)
    (u : String) (hu : p.next_uri = some u) (hr : receive_data r = .ok (.page pg)) :
    drainGen (r :: rest) p tr =
      ((drainGen rest pg { tr with fetched := tr.fetched ++ [u] }).1.map fun l => pg :: l,
       (drainGen rest pg { tr with fetched := tr.fetched ++ [u] }).2) := by
  conv_lhs => rw [drainGen.eq_def]
  rw [hu]; dsimp only; rw [hr]; dsimp only
  rcases h : drainGen rest pg { tr with fetched := tr.fetched ++ [u] } with ⟨res, tr2⟩
  cases res <;> rfl

theorem drainGen_chainOk {Cell : Type} (ps : List (RawPage Cell)) :
    ∀ (p : RawPage Cell) (tr : Trace), chainOk p ps = true →
      drainGen (okResponses ps) p tr =
        (.ok ps, { tr with fetched := tr.fetched ++ chainUris p ps }) := by
  induction ps with
  | nil =>
      intro p tr h
      rw [chainOk, Option.isNone_iff_eq_none] at h
      rw [drainGen_terminal _ _ _ h]
      simp [chainUris]
  | cons q qs ih =>
      intro p tr h
      rw [chainOk] at h
      simp only [Bool.and_eq_true, Option.isSome_iff_exists, Option.isNone_iff_eq_none] at h
      obtain ⟨⟨⟨u, hu⟩, hq⟩, hchain⟩ := h
      rw [okResponses_cons, drainGen_some_page _ _ _ _ _ _ hu (receive_data_okPage q hq),
          ih q _ hchain]
      simp [chainUris, hu, Except.map]

theorem drainGen_fail {Cell : Type} (ps : List (RawPage Cell)) :
    ∀ (p : RawPage Cell) (tr : Trace) (failResp) (rest) (e : DriverError),
      openChain p ps = true → receive_data failResp = .error e →
      drainGen (okResponses ps ++ failResp :: rest) p tr =
        (.error e, { tr with fetched := tr.fetched ++ chainUris p ps ++ lastUri p ps,
                                   disconnects := tr.disconnects + 1 }) := by
  induction ps with
  | nil =>
      intro p tr failResp rest e h hf
      rw [openChain, Option.isSome_iff_exists] at h
      obtain ⟨u, hu⟩ := h
      rw [okResponses, List.map_nil, List.nil_append,
          drainGen_some_err _ _ _ _ _ _ hu hf]
      simp [chainUris, lastUri, hu]
  | cons q qs ih =>
      intro p tr failResp rest e h hf
      rw [openChain] at h
      simp only [Bool.and_eq_true, Option.isSome_iff_exists, Option.isNone_iff_eq_none] at h
      obtain ⟨⟨⟨u, hu⟩, hq⟩, hchain⟩ := h
      rw [okResponses_cons, List.cons_append,
          drainGen_some_page _ _ _ _ _ _ hu (receive_data_okPage q hq),
          ih q _ failResp rest e hchain hf]
      simp [chainUris, lastUri, hu, Except.map, List.append_assoc]

theorem chainUris_length_chainOk {Cell : Type} (ps : List (RawPage Cell)) :
    ∀ p, chainOk p ps = true → (chainUris p ps).length = ps.length := by
  induction ps with
  | nil => intro p h; rfl
  | cons q qs ih =>
      intro p h
      rw [chainOk] at h
      simp only [Bool.and_eq_true, Option.isSome_iff_exists] at h
      obtain ⟨⟨⟨u, hu⟩, _⟩, hchain⟩ := h
      simp [chainUris, hu, ih q hchain]

theorem chainUris_length_openChain {Cell : Type} (ps : List (RawPage Cell)) :
    ∀ p, openChain p ps = true →
      (chainUris p ps).length = ps.length ∧ (lastUri p ps).length = 1 := by
  induction ps with
  | nil =>
      intro p h
      rw [openChain, Option.isSome_iff_exists] at h
      obtain ⟨u, hu⟩ := h
      simp [chainUris, lastUri, hu]
  | cons q qs ih =>
      intro p h
      rw [openChain] at h
      simp only [Bool.and_eq_true, Option.isSome_iff_exists] at h
      obtain ⟨⟨⟨u, hu⟩, _⟩, hchain⟩ := h
      have := ih q hchain
      simp [chainUris, lastUri, hu, this.1, this.2]

theorem drainGen_queries {Cell : Type} (rs : List (Except DriverError (WirePayload Cell))) :
    ∀ (p : RawPage Cell) (tr : Trace), (drainGen rs p tr).2.queries = tr.queries := by
  induction rs with
  | nil =>
      intro p tr
      cases hu : p.next_uri with
      | none => rw [drainGen_terminal _ _ _ hu]
      | some u => rw [drainGen_some_nil _ _ _ hu]
  | cons r rest ih =>
      intro p tr
      cases hu : p.next_uri with
      | none => rw [drainGen_terminal _ _ _ hu]
      | some u =>
          cases hr : receive_data r with
          | error e => rw [drainGen_some_err _ _ _ _ _ _ hu hr]
          | ok d =>
              cases d with
              | falsy => rw [drainGen_some_falsy _ _ _ _ _ hu hr]
              | page pg =>
                  rw [drainGen_some_page _ _ _ _ _ _ hu hr]
                  exact ih pg _

theorem drainGen_fetched_extends {Cell : Type} (rs : List (Except DriverError (WirePayload Cell))) :
    ∀ (p : RawPage Cell) (tr : Trace), ∃ ext,
      (drainGen rs p tr).2.fetched = tr.fetched ++ ext := by
  induction rs with
  | nil =>
      intro p tr
      cases hu : p.next_uri with
      | none => exact ⟨[], by rw [drainGen_terminal _ _ _ hu]; simp⟩
      | some u => exact ⟨[u], by rw [drainGen_some_nil _ _ _ hu]⟩
  | cons r rest ih =>
      intro p tr
      cases hu : p.next_uri with
      | none => exact ⟨[], by rw [drainGen_terminal _ _ _ hu]; simp⟩
      | some u =>
          cases hr : receive_data r with
          | error e => exact ⟨[u], by rw [drainGen_some_err _ _ _ _ _ _ hu hr]⟩
          | ok d =>
              cases d with
              | falsy => exact ⟨[u], by rw [drainGen_some_falsy _ _ _ _ _ hu hr]⟩
              | page pg =>
                  obtain ⟨ext, hx⟩ := ih pg { tr with fetched := tr.fetched ++ [u] }
                  refine ⟨u :: ext, ?_⟩
                  rw [drainGen_some_page _ _ _ _ _ _ hu hr]
                  simpa [List.append_assoc] using hx

theorem drainGen_fetch_issued {Cell : Type} (rs : List (Except DriverError (WirePayload Cell)))
    (p : RawPage Cell) (tr : Trace) (u : String) (hu : p.next_uri = some u) :
    ∃ ext, (drainGen rs p tr).2.fetched = tr.fetched ++ u :: ext := by
  cases rs with
  | nil => exact ⟨[], by rw [drainGen_some_nil _ _ _ hu]⟩
  | cons r rest =>
      cases hr : receive_data r with
      | error e => exact ⟨[], by rw [drainGen_some_err _ _ _ _ _ _ hu hr]⟩
      | ok d =>
          cases d with
          | falsy => exact ⟨[], by rw [drainGen_some_falsy _ _ _ _ _ hu hr]⟩
          | page pg =>
              obtain ⟨ext, hx⟩ := drainGen_fetched_extends rest pg { tr with fetched := tr.fetched ++ [u] }
              refine ⟨ext, ?_⟩
              rw [drainGen_some_page _ _ _ _ _ _ hu hr]
              simpa [List.append_assoc] using hx

/-! ### Unfolding the two consumption modes -/

theorem check_error_none {Cell : Type} (p : RawPage Cell) (h : p.err = none) :
    check_error p = .ok () := by unfold check_error; rw [h]

theorem check_error_some {Cell : Type} (p : RawPage Cell) (e : ServerError) (h : p.err = some e) :
    check_error p = .error (.serverReported e.code e.message) := by unfold check_error; rw [h]

theorem receive_data_err {Cell : Type} (e : DriverError) :
    receive_data (Except.error e : Except DriverError (WirePayload Cell)) = .error e := rfl

theorem receive_result_first_error {Cell : Type} (p0 : RawPage Cell) (rs) (q : String)
    (qid : Option String) (w : Bool) (e : ServerError) (he : p0.err = some e) :
    receive_result (mkTransport p0 rs) q qid w
      = (.error (.serverReported e.code e.message), initTrace q) := by
  unfold receive_result mkTransport
  dsimp only
  rw [check_error_some p0 e he]

theorem iter_first_error {Cell : Type} (p0 : RawPage Cell) (rs) (q : String)
    (e : ServerError) (he : p0.err = some e) :
    iter_receive_result (mkTransport p0 rs) q
      = (.error (.serverReported e.code e.message), initTrace q) := by
  unfold iter_receive_result mkTransport
  dsimp only
  rw [check_error_some p0 e he]

theorem receive_result_drain_ok {Cell : Type} (p0 : RawPage Cell) (rs) (q : String)
    (qid : Option String) (w : Bool) (u : String) (packets : List (RawPage Cell)) (tr : Trace)
    (h0 : p0.err = none) (hu : p0.next_uri = some u)
    (hd : drainGen rs p0 (initTrace q) = (.ok packets, tr)) :
    receive_result (mkTransport p0 rs) q qid w = (.ok (get_result w packets), tr) := by
  unfold receive_result mkTransport
  dsimp only
  rw [check_error_none p0 h0]
  dsimp only
  rw [hu]
  dsimp only
  rw [hd]

theorem receive_result_drain_err {Cell : Type} (p0 : RawPage Cell) (rs) (q : String)
    (qid : Option String) (w : Bool) (u : String) (e : DriverError) (tr : Trace)
    (h0 : p0.err = none) (hu : p0.next_uri = some u)
    (hd : drainGen rs p0 (initTrace q) = (.error e, tr)) :
    receive_result (mkTransport p0 rs) q qid w = (.error e, tr) := by
  unfold receive_result mkTransport
  dsimp only
  rw [check_error_none p0 h0]
  dsimp only
  rw [hu]
  dsimp only
  rw [hd]

theorem iter_drain_ok {Cell : Type} (p0 : RawPage Cell) (rs) (q : String)
    (u : String) (packets : List (RawPage Cell)) (tr : Trace)
    (h0 : p0.err = none) (hu : p0.next_uri = some u)
    (hd : drainGen rs p0 (initTrace q) = (.ok packets, tr)) :
    iter_receive_result (mkTransport p0 rs) q
      = (.ok ((packets.map fun p => p.data).flatten).flatten, tr) := by
  unfold iter_receive_result mkTransport
  dsimp only
  rw [check_error_none p0 h0]
  dsimp only
  rw [hu]
  dsimp only
  rw [hd]

theorem iter_drain_err {Cell : Type} (p0 : RawPage Cell) (rs) (q : String)
    (u : String) (e : DriverError) (tr : Trace)
    (h0 : p0.err = none) (hu : p0.next_uri = some u)
    (hd : drainGen rs p0 (initTrace q) = (.error e, tr)) :
    iter_receive_result (mkTransport p0 rs) q = (.error e, tr) := by
  unfold iter_receive_result mkTransport
  dsimp only
  rw [check_error_none p0 h0]
  dsimp only
  rw [hu]
  dsimp only
  rw [hd]

theorem openChain_head_some {Cell : Type} (p : RawPage Cell) (ps : List (RawPage Cell))
    (h : openChain p ps = true) : ∃ u, p.next_uri = some u := by
  cases ps with
  | nil =>
      rw [openChain, Option.isSome_iff_exists] at h
      exact h
  | cons q qs =>
      rw [openChain] at h
      simp only [Bool.and_eq_true, Option.isSome_iff_exists] at h
      exact h.1.1

/-! ### Concrete fixtures used by the closed statements -/

/-- A first page carrying the row `[1]` and a continuation to `u2`. -/
def pageOne : RawPage Nat := ⟨["Int32"], [[1]], some "u2", none⟩

/-- A terminal second page carrying the row `[2]`. -/
def pageTwo : RawPage Nat := ⟨["Int32"], [[2]], none, none⟩

/-- A terminal second page carrying the one two-cell row `[3, 4]`. -/
def pageTwoCells : RawPage Nat := ⟨["Int32"], [[3, 4]], none, none⟩

/-- A first page with no continuation, carrying the row `[7]`. -/
def singlePage : RawPage Nat := ⟨["UInt8"], [[7]], none, none⟩

/-- A first page that embeds the server error `42, boom`. -/
def errorFirstPage : RawPage Nat := ⟨[], [], none, some ⟨42, "boom"⟩⟩

/-- A continuation page with zero rows and a further continuation to `u3`. -/
def emptyMidPage : RawPage Nat := ⟨["Int32"], [], some "u3", none⟩

/-- A terminal continuation page carrying the row `[9]`. -/
def lastPage : RawPage Nat := ⟨["Int32"], [[9]], none, none⟩

/-- The configuration `from_url` computes on `c2url`. -/
def c2cfg : ClientConfig :=
  { host := some "host", port := some 1234, database := some "db",
    user := some "u", password := some "p", secure := some true,
    client_name := none, connect_timeout := some 5,
    send_receive_timeout := none, sync_request_timeout := none,
    settings := [("x", "1")] }

/-! ### The claims -/

/-- C1, counterexample: a fault-free two-page query whose first page carries
the row `[1]` and whose second page carries `[2]`. `execute` returns only
`[[2]]`: it does not return the concatenation `[[1], [2]]` of the rows of
all pages in page order, refuting the claim at this input (the generator
never yields the first page, so its rows are dropped). -/
theorem c1_counterexample :
    (execute (mkTransport pageOne [Except.ok (WirePayload.jsonString (InnerDoc.page pageTwo))])
        "q" () false none ()).1 = .ok (.rows [[2]]) ∧
    (execute (mkTransport pageOne [Except.ok (WirePayload.jsonString (InnerDoc.page pageTwo))])
        "q" () false none ()).1 ≠ .ok (.rows [[1], [2]]) := by decide

/-- C1 (amended): for every fault-free query of `N ≥ 2` pages, `execute`
returns the concatenation of the rows of pages `2..N` in page order — the
rows of the first page are not included, because `data_generator` never
yields the page it starts from — and exactly `N − 1` continuation fetches
are issued to the transport. -/
theorem c1_execute_multipage {α σ : Type} (p0 : RawPage Nat) (ps : List (RawPage Nat))
    (q : String) (params : α) (query_id : Option String) (settings : σ)
    (h0 : p0.err = none) (hne : ps ≠ []) (hc : chainOk p0 ps = true) :
    (execute (mkTransport p0 (okResponses ps)) q params false query_id settings).1
        = .ok (.rows (ps.map fun p => p.data).flatten) ∧
    (execute (mkTransport p0 (okResponses ps)) q params false query_id settings).2.fetched.length
        = ps.length := by
  obtain ⟨q1, qs, rfl⟩ : ∃ q1 qs, ps = q1 :: qs := by
    cases ps with
    | nil => exact absurd rfl hne
    | cons a b => exact ⟨a, b, rfl⟩
  have hu : ∃ u, p0.next_uri = some u := by
    rw [chainOk] at hc
    simp only [Bool.and_eq_true, Option.isSome_iff_exists] at hc
    exact hc.1.1
  obtain ⟨u, hu⟩ := hu
  have hd := drainGen_chainOk (q1 :: qs) p0 (initTrace q) hc
  unfold execute process_ordinary_query
  rw [receive_result_drain_ok p0 _ q query_id false u _ _ h0 hu hd]
  constructor
  · simp [get_result]
  · simp [initTrace, chainUris_length_chainOk _ _ hc]

/-- C1, witness: a three-page query (first page, a zero-row middle page, a
final page carrying `[9]`) on which the amended theorem is instantiated. -/
theorem c1_execute_multipage_witness :
    pageOne.err = none ∧ ([emptyMidPage, lastPage] : List (RawPage Nat)) ≠ [] ∧
    chainOk pageOne [emptyMidPage, lastPage] = true ∧
    ((execute (mkTransport pageOne (okResponses [emptyMidPage, lastPage])) "q" () false none ()).1
        = .ok (.rows ([emptyMidPage, lastPage].map fun p => p.data).flatten) ∧
     (execute (mkTransport pageOne (okResponses [emptyMidPage, lastPage])) "q" () false none ()).2.fetched.length
        = ([emptyMidPage, lastPage] : List (RawPage Nat)).length) :=
  ⟨rfl, by decide, by decide,
    c1_execute_multipage pageOne [emptyMidPage, lastPage] "q" () none () rfl (by decide) (by decide)⟩

/-- C2: on `https://u:p@host:1234/db?secure=false&connect_timeout=5&x=1`,
`from_url` does yield `connect_timeout = 5.0`, `database = "db"` and the
server setting `x = "1"`, but `secure` ends up `true`, not `false`: every
later query option re-runs the `https` branch that resets
`kwargs['secure'] = True`, overwriting the explicit `secure=false`. -/
theorem c2_from_url_secure_overwritten :
    from_url c2url = some c2cfg ∧
    c2cfg.secure = some true ∧ c2cfg.secure ≠ some false ∧
    c2cfg.connect_timeout = some 5 ∧ c2cfg.database = some "db" ∧
    c2cfg.settings = [("x", "1")] := by
  refine ⟨by decide, rfl, by decide, rfl, rfl, rfl⟩

/-- C3, counterexample: a query whose first page embeds a server error. The
failure reaches the caller, but the transport is disconnected zero times,
not exactly once, in both consumption modes: the first-page
`check_error` call sits outside any protecting handler. -/
theorem c3_counterexample :
    receive_result (mkTransport errorFirstPage []) "q" none false
      = (.error (.serverReported 42 "boom"), initTrace "q") ∧
    (receive_result (mkTransport errorFirstPage []) "q" none false).2.disconnects = 0 ∧
    (iter_receive_result (mkTransport errorFirstPage []) "q").2.disconnects = 0 := by decide

/-- C3 (amended): for every failure raised during a continuation fetch
(pages `k ≥ 2`) — embedded server error, decode failure, transport failure
or interrupt, i.e. any response on which `receive_data` fails — the
transport is disconnected exactly once and the failure reaches the caller
unchanged, in both the materializing and the streaming mode; a failure on
the first response propagates without any disconnect. -/
theorem c3_continuation_failure_disconnects_once
    (p0 : RawPage Nat) (ps : List (RawPage Nat)) (q : String)
    (failResp : Except DriverError (WirePayload Nat))
    (rest : List (Except DriverError (WirePayload Nat))) (e : DriverError)
    (h0 : p0.err = none) (hc : openChain p0 ps = true)
    (hf : receive_data failResp = .error e) :
    (receive_result (mkTransport p0 (okResponses ps ++ failResp :: rest)) q none false).1
        = .error e ∧
    (receive_result (mkTransport p0 (okResponses ps ++ failResp :: rest)) q none false).2.disconnects
        = 1 ∧
    (iter_receive_result (mkTransport p0 (okResponses ps ++ failResp :: rest)) q).1 = .error e ∧
    (iter_receive_result (mkTransport p0 (okResponses ps ++ failResp :: rest)) q).2.disconnects
        = 1 := by
  obtain ⟨u, hu⟩ := openChain_head_some p0 ps hc
  have hd := drainGen_fail ps p0 (initTrace q) failResp rest e hc hf
  rw [receive_result_drain_err p0 _ q none false u e _ h0 hu hd,
      iter_drain_err p0 _ q u e _ h0 hu hd]
  simp [initTrace]

/-- C3, witness: a transport failure on the very first continuation fetch of
a two-page query, instantiating the amended theorem. -/
theorem c3_amended_witness :
    pageOne.err = none ∧ openChain pageOne ([] : List (RawPage Nat)) = true ∧
    receive_data (Except.error (DriverError.transportError "t") : Except DriverError (WirePayload Nat))
      = .error (.transportError "t") ∧
    ((receive_result (mkTransport pageOne (okResponses [] ++ Except.error (DriverError.transportError "t") :: [])) "q" none false).1
        = .error (.transportError "t") ∧
     (receive_result (mkTransport pageOne (okResponses [] ++ Except.error (DriverError.transportError "t") :: [])) "q" none false).2.disconnects
        = 1 ∧
     (iter_receive_result (mkTransport pageOne (okResponses [] ++ Except.error (DriverError.transportError "t") :: [])) "q").1
        = .error (.transportError "t") ∧
     (iter_receive_result (mkTransport pageOne (okResponses [] ++ Except.error (DriverError.transportError "t") :: [])) "q").2.disconnects
        = 1) :=
  ⟨rfl, by decide, rfl,
    c3_continuation_failure_disconnects_once pageOne [] "q"
      (Except.error (DriverError.transportError "t")) [] (DriverError.transportError "t")
      rfl (by decide) rfl⟩

/-- C4: at a single-page query carrying the row `[7]`, `execute` returns
`[[7]]` while a fully drained `iter_receive_result` yields nothing (the
generator executes `return raw_data`, whose value a `for` consumer never
sees); at a two-page query whose second page carries the row `[3, 4]`,
`execute` returns `[[3, 4]]` while the drained stream yields the flattened
cells `[3, 4]` (one `yield` per cell, not per row). The two modes do not
produce the same row sequence. -/
theorem c4_streaming_differs_from_materializing :
    (execute (mkTransport singlePage []) "q" () false none ()).1 = .ok (.rows [[7]]) ∧
    (iter_receive_result (mkTransport singlePage []) "q").1 = .ok [] ∧
    (execute (mkTransport pageOne [Except.ok (WirePayload.jsonString (InnerDoc.page pageTwoCells))])
        "q" () false none ()).1 = .ok (.rows [[3, 4]]) ∧
    (iter_receive_result (mkTransport pageOne [Except.ok (WirePayload.jsonString (InnerDoc.page pageTwoCells))])
        "q").1 = .ok [3, 4] := by decide

/-- C5: on a first page with `next_uri = None` carrying the row `[7]`,
`execute` returns exactly that page's rows (with the column types when
requested) and issues zero continuation fetches in both modes and for both
flag values — but the streaming mode yields no rows at all: its
`return raw_data` fast path ends the generator without yielding. -/
theorem c5_single_page_fast_path :
    (execute (mkTransport singlePage []) "q" () false none ()).1 = .ok (.rows [[7]]) ∧
    (execute (mkTransport singlePage []) "q" () true none ()).1
      = .ok (.rowsWithTypes [[7]] ["UInt8"]) ∧
    iter_receive_result (mkTransport singlePage []) "q" = (.ok [], initTrace "q") ∧
    (execute (mkTransport singlePage []) "q" () false none ()).2.fetched = [] ∧
    (execute (mkTransport singlePage []) "q" () true none ()).2.fetched = [] := by decide

/-- C6: the page-fetch loop of `data_generator` stops issuing fetches
exactly when the current page's `next_uri` is `None` (first conjunct: no
fetch is recorded from a page if and only if its `next_uri` is null), and a
fetched page with zero rows but a non-null `next_uri` is yielded without
contributing rows and the loop continues from it, so its continuation is
still fetched (second conjunct: the loop's unfolding through a zero-row
page with `next_uri = u2`). -/
theorem c6_loop_stops_iff_next_uri_none :
    (∀ (rs : List (Except DriverError (WirePayload Nat))) (p : RawPage Nat) (tr : Trace),
        (drainGen rs p tr).2.fetched = tr.fetched ↔ p.next_uri = none) ∧
    (∀ (rs : List (Except DriverError (WirePayload Nat))) (ts2 : List String) (u2 : String)
        (ts : List String) (d : List (List Nat)) (er : Option ServerError) (u : String)
        (tr : Trace),
        drainGen (Except.ok (WirePayload.jsonString (InnerDoc.page ⟨ts2, [], some u2, none⟩)) :: rs)
            (⟨ts, d, some u, er⟩ : RawPage Nat) tr
          = ((drainGen rs ⟨ts2, [], some u2, none⟩ { tr with fetched := tr.fetched ++ [u] }).1.map
               fun l => (⟨ts2, [], some u2, none⟩ : RawPage Nat) :: l,
             (drainGen rs ⟨ts2, [], some u2, none⟩ { tr with fetched := tr.fetched ++ [u] }).2)) := by
  constructor
  · intro rs p tr
    constructor
    · intro h
      by_contra hne
      obtain ⟨u, hu⟩ := Option.ne_none_iff_exists'.mp hne
      obtain ⟨ext, hx⟩ := drainGen_fetch_issued rs p tr u hu
      rw [hx] at h
      simp at h
    · intro h
      rw [drainGen_terminal _ _ _ h]
  · intro rs ts2 u2 ts d er u tr
    exact drainGen_some_page _ _ _ _ _ _ rfl (receive_data_okPage _ rfl)

/-- C7: the embedded-error check runs on every decoded page. First conjunct:
an embedded error on the first page makes both consumption modes fail with
`ServerReportedError` carrying that page's code and message. Second
conjunct: an embedded error on any later page `k ≥ 2` does the same, and in
the materializing mode the result is the propagated failure, so no rows of
pages `1..k−1` reach the caller. -/
theorem c7_embedded_error_checked_on_every_page (c : Int) (m : String) :
    (∀ (p0 : RawPage Nat) (rs) (q : String), p0.err = some ⟨c, m⟩ →
        (receive_result (mkTransport p0 rs) q none false).1 = .error (.serverReported c m) ∧
        (iter_receive_result (mkTransport p0 rs) q).1 = .error (.serverReported c m)) ∧
    (∀ (p0 : RawPage Nat) (ps : List (RawPage Nat)) (pk : RawPage Nat) (rest) (q : String),
        p0.err = none → openChain p0 ps = true → pk.err = some ⟨c, m⟩ →
        (receive_result
            (mkTransport p0 (okResponses ps ++ Except.ok (WirePayload.jsonString (InnerDoc.page pk)) :: rest))
            q none false).1 = .error (.serverReported c m) ∧
        (iter_receive_result
            (mkTransport p0 (okResponses ps ++ Except.ok (WirePayload.jsonString (InnerDoc.page pk)) :: rest))
            q).1 = .error (.serverReported c m)) := by
  constructor
  · intro p0 rs q he
    rw [receive_result_first_error p0 rs q none false ⟨c, m⟩ he,
        iter_first_error p0 rs q ⟨c, m⟩ he]
    exact ⟨rfl, rfl⟩
  · intro p0 ps pk rest q h0 hc hk
    obtain ⟨u, hu⟩ := openChain_head_some p0 ps hc
    have hf : receive_data (Except.ok (WirePayload.jsonString (InnerDoc.page pk)))
        = .error (.serverReported c m) := receive_data_errPage pk ⟨c, m⟩ hk
    have hd := drainGen_fail ps p0 (initTrace q) _ rest _ hc hf
    rw [receive_result_drain_err p0 _ q none false u _ _ h0 hu hd,
        iter_drain_err p0 _ q u _ _ h0 hu hd]
    exact ⟨rfl, rfl⟩

/-- C7, witness: the embedded error `42, boom` on the first page and on the
second page of a two-page query, instantiating both conjuncts. -/
theorem c7_witness :
    (errorFirstPage.err = some ⟨42, "boom"⟩ ∧
     ((receive_result (mkTransport errorFirstPage []) "q" none false).1
        = .error (.serverReported 42 "boom") ∧
      (iter_receive_result (mkTransport errorFirstPage []) "q").1
        = .error (.serverReported 42 "boom"))) ∧
    (pageOne.err = none ∧ openChain pageOne ([] : List (RawPage Nat)) = true ∧
     errorFirstPage.err = some ⟨42, "boom"⟩ ∧
     ((receive_result
          (mkTransport pageOne (okResponses [] ++ Except.ok (WirePayload.jsonString (InnerDoc.page errorFirstPage)) :: []))
          "q" none false).1 = .error (.serverReported 42 "boom") ∧
      (iter_receive_result
          (mkTransport pageOne (okResponses [] ++ Except.ok (WirePayload.jsonString (InnerDoc.page errorFirstPage)) :: []))
          "q").1 = .error (.serverReported 42 "boom"))) :=
  ⟨⟨rfl, (c7_embedded_error_checked_on_every_page 42 "boom").1 errorFirstPage [] "q" rfl⟩,
   ⟨rfl, by decide, rfl,
    (c7_embedded_error_checked_on_every_page 42 "boom").2 pageOne [] errorFirstPage [] "q"
      rfl (by decide) rfl⟩⟩

/-- C8: an interrupt delivered while a continuation fetch is outstanding
(the scripted response to that fetch raises `KeyboardInterrupt`) aborts the
iteration, disconnects the transport exactly once, reaches the caller
unchanged, and no further fetch is issued — the fetched-URI list has exactly
the interrupted fetch as its last element even though the script would have
answered more — in both consumption modes. -/
theorem c8_interrupt_during_fetch
    (p0 : RawPage Nat) (ps : List (RawPage Nat)) (q : String)
    (rest : List (Except DriverError (WirePayload Nat)))
    (h0 : p0.err = none) (hc : openChain p0 ps = true) :
    (receive_result (mkTransport p0 (okResponses ps ++ Except.error DriverError.keyboardInterrupt :: rest)) q none false).1
        = .error .keyboardInterrupt ∧
    (receive_result (mkTransport p0 (okResponses ps ++ Except.error DriverError.keyboardInterrupt :: rest)) q none false).2.disconnects
        = 1 ∧
    (receive_result (mkTransport p0 (okResponses ps ++ Except.error DriverError.keyboardInterrupt :: rest)) q none false).2.fetched.length
        = ps.length + 1 ∧
    (iter_receive_result (mkTransport p0 (okResponses ps ++ Except.error DriverError.keyboardInterrupt :: rest)) q).1
        = .error .keyboardInterrupt ∧
    (iter_receive_result (mkTransport p0 (okResponses ps ++ Except.error DriverError.keyboardInterrupt :: rest)) q).2.disconnects
        = 1 ∧
    (iter_receive_result (mkTransport p0 (okResponses ps ++ Except.error DriverError.keyboardInterrupt :: rest)) q).2.fetched.length
        = ps.length + 1 := by
  obtain ⟨u, hu⟩ := openChain_head_some p0 ps hc
  have hd := drainGen_fail ps p0 (initTrace q) _ rest _ hc (receive_data_err .keyboardInterrupt)
  have hlen := chainUris_length_openChain ps p0 hc
  rw [receive_result_drain_err p0 _ q none false u _ _ h0 hu hd,
      iter_drain_err p0 _ q u _ _ h0 hu hd]
  simp [initTrace, hlen.1, hlen.2]

/-- C8, witness: an interrupt delivered during the first continuation fetch
of a two-page query, instantiating the theorem. -/
theorem c8_witness :
    pageOne.err = none ∧ openChain pageOne ([] : List (RawPage Nat)) = true ∧
    ((receive_result (mkTransport pageOne (okResponses [] ++ Except.error DriverError.keyboardInterrupt :: [])) "q" none false).1
        = .error .keyboardInterrupt ∧
     (receive_result (mkTransport pageOne (okResponses [] ++ Except.error DriverError.keyboardInterrupt :: [])) "q" none false).2.disconnects
        = 1 ∧
     (receive_result (mkTransport pageOne (okResponses [] ++ Except.error DriverError.keyboardInterrupt :: [])) "q" none false).2.fetched.length
        = ([] : List (RawPage Nat)).length + 1 ∧
     (iter_receive_result (mkTransport pageOne (okResponses [] ++ Except.error DriverError.keyboardInterrupt :: [])) "q").1
        = .error .keyboardInterrupt ∧
     (iter_receive_result (mkTransport pageOne (okResponses [] ++ Except.error DriverError.keyboardInterrupt :: [])) "q").2.disconnects
        = 1 ∧
     (iter_receive_result (mkTransport pageOne (okResponses [] ++ Except.error DriverError.keyboardInterrupt :: [])) "q").2.fetched.length
        = ([] : List (RawPage Nat)).length + 1) :=
  ⟨rfl, by decide, c8_interrupt_during_fetch pageOne [] "q" [] rfl (by decide)⟩

/-- C9: `execute` issues the same request wholly independently of its
`params`, `query_id` and `settings` arguments — the outcome and trace are
identical for any values (even of different types), and the one query it
submits to the transport carries a `None` query identifier. -/
theorem c9_execute_ignores_params_query_id_settings {α β σ τ : Type}
    (t : Transport Nat) (q : String) (w : Bool) (params : α) (params2 : β)
    (query_id query_id2 : Option String) (settings : σ) (settings2 : τ) :
    execute t q params w query_id settings = execute t q params2 w query_id2 settings2 ∧
    (execute t q params w query_id settings).2.queries = [(q, none)] := by
  refine ⟨rfl, ?_⟩
  unfold execute process_ordinary_query receive_result
  cases hq : t.query q none with
  | error e => rfl
  | ok raw =>
      dsimp only
      cases hce : check_error raw with
      | error e => rfl
      | ok u0 =>
          dsimp only
          cases hnu : raw.next_uri with
          | none => cases w <;> rfl
          | some u =>
              dsimp only
              have hqs := drainGen_queries t.responses raw (initTrace q)
              rcases hd : drainGen t.responses raw (initTrace q) with ⟨res, tr⟩
              rw [hd] at hqs
              cases res <;> simpa [initTrace] using hqs

/-- C10: the payload of a continuation fetch goes through two nested JSON
decodes. A doubly-encoded page (a JSON string whose string value is a page
document) decodes to that page, while a singly-encoded plain JSON object
makes `receive_data` fail with a decode error instead of producing a
page. -/
theorem c10_receive_data_requires_double_encoding :
    (∀ (ts : List String) (d : List (List Nat)) (nu : Option String),
        receive_data (Except.ok (WirePayload.jsonString (InnerDoc.page ⟨ts, d, nu, none⟩)))
          = .ok (.page ⟨ts, d, nu, none⟩)) ∧
    (∀ (p : RawPage Nat),
        receive_data (Except.ok (WirePayload.jsonObject p))
          = (.error .decodeError : Except DriverError (Decoded Nat))) :=
  ⟨fun ts d nu => receive_data_okPage _ rfl, fun p => rfl⟩

end DatabendPy
